import Mathlib

/-!
Verification of the kantek moderation bot against its specification.

Shallow embedding of the relevant source:
* `src/kantek/database/arango.py` — Chats, AutobahnBlacklist collections,
  BanList, and the ArangoDB collection map.
* `src/kantek/plugins/autobahn/autobahn_mgr.py` — AUTOBAHN_TYPES, the add /
  query subcommands of the autobahn command.
* `src/kantek/plugins/autobahn/automatic/grenzschutz.py` — guard automation.
* `src/kantek/plugins/autobahn/automatic/kriminalamt.py` — delayed-action
  automation.

Collections are modelled as explicit state (lists of documents); the pyArango
behaviour of `createDocument`/`save` raising `CreationError` on a duplicate
`_key` becomes an `Option`-returning insert that leaves the state unchanged.
-/

namespace Kantek

/-- A dynamic value as handled by the Python code: absent (None), an int, or
a string.  Used for tag values resolved by `Tags.get`. -/
inductive PyVal where
  | none
  | int (n : Int)
  | str (s : String)
  | range (lo hi : Int)
deriving DecidableEq, Repr

/-- Python truthiness of a `PyVal`, as used in `if not kriminalamt_tag`. -/
def PyVal.truthy : PyVal → Bool
  | .none => false
  | .int n => n ≠ 0
  | .str s => s ≠ ""
  | .range lo hi => lo < hi

/-- `AUTOBAHN_TYPES` from `plugins/autobahn/autobahn_mgr.py` lines 21-30:
maps the user-facing blacklist type name to its hexadecimal type code. -/
def AUTOBAHN_TYPES : String → Option String
  | "bio" => some "0x0"
  | "string" => some "0x1"
  | "filename" => some "0x2"
  | "channel" => some "0x3"
  | "domain" => some "0x4"
  | "file" => some "0x5"
  | "mhash" => some "0x6"
  | "tld" => some "0x7"
  | _ => Option.none

/-- The blacklist collections instantiated by `ArangoDB.__init__`
(`database/arango.py` lines 230-243).  Each corresponds to one
`AutobahnBlacklist` subclass.  Note: `__init__` creates no collection for
`AutobahnFilenameBlacklist` even though the class (hex_type 0x2) is declared
in `database/arango.py` lines 111-113. -/
inductive ABCollectionId where
  | bio      -- AutobahnBioBlacklist, hex_type 0x0
  | string_  -- AutobahnStringBlacklist, hex_type 0x1
  | filename -- AutobahnFilenameBlacklist, hex_type 0x2 (class declared, never wired)
  | channel  -- AutobahnChannelBlacklist, hex_type 0x3
  | domain   -- AutobahnDomainBlacklist, hex_type 0x4
  | file     -- AutobahnFileBlacklist, hex_type 0x5
  | mhash    -- AutobahnMHashBlacklist, hex_type 0x6
  | tld      -- AutobahnTLDBlacklist, hex_type 0x7
deriving DecidableEq, Repr

/-- The `hex_type` class attribute of each `AutobahnBlacklist` subclass
(`database/arango.py` lines 101-138). -/
def ABCollectionId.hex_type : ABCollectionId → String
  | .bio => "0x0"
  | .string_ => "0x1"
  | .filename => "0x2"
  | .channel => "0x3"
  | .domain => "0x4"
  | .file => "0x5"
  | .mhash => "0x6"
  | .tld => "0x7"

/-- `self.ab_collection_map` from `ArangoDB.__init__`
(`database/arango.py` lines 244-252), transcribed key for key.
`dict.get` on a missing key returns None, hence the `Option`. -/
def ab_collection_map : String → Option ABCollectionId
  | "0x0" => some .bio
  | "0x1" => some .string_
  | "0x3" => some .channel
  | "0x4" => some .domain
  | "0x5" => some .file
  | "0x6" => some .mhash
  | "0x7" => some .tld
  | _ => Option.none

/-! ## AutobahnBlacklist collections as state

A blacklist collection holds documents with an auto-increment `_key`
(offset 1, `allowUserKeys: False`) and a `string` field. -/

/-- State of one `AutobahnBlacklist` collection: the documents as
(key, string) pairs plus the auto-increment counter. -/
structure ABCollection where
  docs : List (Nat × String)
  nextKey : Nat
deriving DecidableEq, Repr

/-- The empty collection, as freshly created (auto-increment offset 1). -/
def ABCollection.empty : ABCollection := ⟨[], 1⟩

/-- `collection.fetchByExample(\x7b'string': item\x7d, batchSize=1)` from the
add subcommand: the documents whose `string` field equals the item. -/
def ABCollection.fetchByExample (c : ABCollection) (item : String) :
    List (Nat × String) :=
  c.docs.filter (fun d => d.2 = item)

/-- `AutobahnBlacklist.add_item` (`database/arango.py` lines 81-94): create a
document with the given `string` field; the store assigns the next
auto-increment key. -/
def ABCollection.add_item (c : ABCollection) (item : String) :
    Option (Nat × String) × ABCollection :=
  let doc := (c.nextKey, item)
  (some doc, ⟨c.docs ++ [doc], c.nextKey + 1⟩)

/-- Result of one item in the add subcommand loop: appended to
`added_items`, `existing_items`, or neither. -/
inductive AddOutcome where
  | added (key : Nat)
  | existing
deriving DecidableEq, Repr

/-- The per-item core of the `add` subcommand
(`plugins/autobahn/autobahn_mgr.py` lines 109-115): an existing-document
check via `fetchByExample` followed by `add_item` only when no document with
that string exists. -/
def addToCollection (c : ABCollection) (item : String) :
    AddOutcome × ABCollection :=
  let existing_one := c.fetchByExample item
  if existing_one.isEmpty then
    match c.add_item item with
    | (_, c2) => (.added c.nextKey, c2)
  else
    (.existing, c)

/-! ## TLD normalization -/

/-- The `hex_type == '0x7'` normalization in the add subcommand
(`plugins/autobahn/autobahn_mgr.py` line 103): Python
`item.replace('.', '')`, which removes every occurrence of the dot. -/
def normalizeTld (s : String) : String :=
  ⟨s.data.filter (fun c => c ≠ '.')⟩

/-- What the spec sentence describes, stated from its words for comparison:
strip leading dots and leave the rest of the string unchanged. -/
def stripLeadingDotsSpec (s : String) : String :=
  ⟨s.data.dropWhile (fun c => c = '.')⟩

/-! ## BanList collection -/

/-- State of the `BanList` collection: documents keyed by the banned user id
(`_key` = id), holding the stored reason. -/
structure BanListState where
  docs : List (Int × String)
deriving DecidableEq, Repr

/-- `BanList.add_user` (`database/arango.py` lines 158-174): create a
document keyed by the user id; a duplicate `_key` makes `save` raise
`CreationError`, which the method converts to `None` without touching the
existing document. -/
def BanListState.add_user (bl : BanListState) (id_ : Int) (reason : String) :
    Option (Int × String) × BanListState :=
  if bl.docs.any (fun d => d.1 = id_) then
    (Option.none, bl)
  else
    (some (id_, reason), ⟨bl.docs ++ [(id_, reason)]⟩)

/-- `BanList.get_user` (`database/arango.py` lines 176-185): fetch the
document by key, `None` when absent. -/
def BanListState.get_user (bl : BanListState) (uid : Int) : Option String :=
  (bl.docs.find? (fun d => d.1 = uid)).map (fun d => d.2)

/-! ## Chats collection -/

/-- A document of the `Chats` collection. -/
structure ChatDoc where
  key : String
  id : Int
  tags : List String
  named_tags : List (String × PyVal)
deriving DecidableEq, Repr

/-- State of the `Chats` collection, keyed by `_key`. -/
structure ChatsState where
  docs : List ChatDoc
deriving DecidableEq, Repr

/-- `Chats.add_chat` (`database/arango.py` lines 34-49): create the chat
document with `_key` the string form of the id, empty `tags` and empty
`named_tags`; a duplicate key raises `CreationError`, converted to `None`. -/
def ChatsState.add_chat (cs : ChatsState) (chat_id : Int) :
    Option ChatDoc × ChatsState :=
  let data : ChatDoc := ⟨toString chat_id, chat_id, [], []⟩
  if cs.docs.any (fun d => d.key = toString chat_id) then
    (Option.none, cs)
  else
    (some data, ⟨cs.docs ++ [data]⟩)

/-- `Chats.get_chat` (`database/arango.py` lines 51-60): fetch by key; on
`DocumentNotFoundError` fall back to `add_chat`. -/
def ChatsState.get_chat (cs : ChatsState) (chat_id : Int) :
    Option ChatDoc × ChatsState :=
  match cs.docs.find? (fun d => d.key = toString chat_id) with
  | some doc => (some doc, cs)
  | Option.none => cs.add_chat chat_id

/-! ## Guard automation (grenzschutz)

`plugins/autobahn/automatic/grenzschutz.py`.  External awaits (entity
resolution, the BanList query, the admin list, the ban call) are modelled as
fields of the event record giving their outcome for this event. -/

/-- The inputs the grenzschutz handler reads for one event. -/
structure GEvent where
  /-- `event.is_private` -/
  is_private : Bool
  /-- the event is a `ChatAction.Event` (otherwise a `NewMessage.Event`) -/
  isChatAction : Bool
  /-- `event.user_left` -/
  user_left : Bool
  /-- `event.user_kicked` -/
  user_kicked : Bool
  /-- `event.action_message` is not None -/
  action_message_present : Bool
  /-- the action message's action is `MessageActionChatJoinedByLink` or
  `MessageActionChatAddUser` -/
  actionIsJoinOrAdd : Bool
  /-- `chat.creator` -/
  chat_creator : Bool
  /-- `chat.admin_rights` is not None -/
  chat_admin_rights : Bool
  /-- `chat.admin_rights.ban_users` -/
  ban_users : Bool
  /-- `tags.get('polizei')` -/
  polizei_tag : PyVal
  /-- `tags.get('grenzschutz')` -/
  grenzschutz_tag : PyVal
  /-- `event.user_id` resp. `event.message.from_id` -/
  uid : Option Int
  /-- `client.get_entity(uid)` succeeds (otherwise it raises `ValueError`) -/
  getEntityOk : Bool
  /-- the reason of the BanList document keyed by `uid`, if one exists -/
  banReason : Option String
  /-- `uid` is in the chat's admin list -/
  uidIsAdmin : Bool
  /-- `client.ban(chat, uid)` succeeds (otherwise `UserIdInvalidError`) -/
  banOk : Bool
deriving DecidableEq, Repr

/-- The observable effects of one grenzschutz invocation. -/
structure GResult where
  /-- `client.ban(chat, uid)` completed -/
  banned : Bool
  /-- `event.delete()` was executed -/
  deleted : Bool
  /-- the notification message was sent -/
  notified : Bool
  /-- a `NameError` escaped the handler (local `user` referenced unbound) -/
  raisedNameError : Bool
deriving DecidableEq, Repr

/-- The handler returned without any effect. -/
def GResult.skip : GResult := ⟨false, false, false, false⟩

/-- The grenzschutz handler (`grenzschutz.py` lines 24-100), transcribed
guard by guard.  Note the `except ValueError` around `client.get_entity`
(lines 72-75) only logs: there is no `return`, so execution continues with
the local `user` unbound, and the notification branch (line 96) then raises
`NameError` when it reads `user.first_name`. -/
def grenzschutz (e : GEvent) : GResult :=
  if e.is_private then .skip
  else if e.isChatAction ∧ (e.user_left ∨ e.user_kicked) then .skip
  else if e.isChatAction ∧ ¬e.action_message_present then .skip
  else if e.isChatAction ∧ ¬e.actionIsJoinOrAdd then .skip
  else if ¬e.chat_creator ∧ ¬e.chat_admin_rights then .skip
  else if e.chat_admin_rights ∧ ¬e.ban_users then .skip
  else
    let silent := e.grenzschutz_tag = .str "silent"
    if e.grenzschutz_tag = .str "exclude" ∨ e.polizei_tag = .str "exclude" then .skip
    else
      match e.uid with
      | Option.none => .skip
      | some _ =>
        match e.banReason with
        | Option.none => .skip
        | some _ =>
          if e.uidIsAdmin then .skip
          else if ¬e.banOk then .skip
          else if silent then ⟨true, true, false, false⟩
          else if e.getEntityOk then ⟨true, true, true, false⟩
          else ⟨true, true, false, true⟩

/-! ## Delayed-action automation (kriminalamt)

`plugins/autobahn/automatic/kriminalamt.py`. -/

/-- The inputs the kriminalamt handler reads for one event. -/
structure KEvent where
  /-- `event.user_joined` -/
  user_joined : Bool
  /-- `user.bot` -/
  user_bot : Bool
  /-- `tags.get('kriminalamt')` (`PyVal.none` when the tag is absent) -/
  kriminalamt_tag : PyVal
  /-- `tags.get('gbancmd', 'manual')` before the default is applied -/
  gbancmd_tag : PyVal
  /-- after the delay, `GetParticipantRequest` finds the user (otherwise it
  raises `UserNotParticipantError`) -/
  stillParticipant : Bool
  /-- `chat.id` -/
  chat_id : Int
  /-- `event.user_id` -/
  user_id : Int
  /-- `chat.creator` -/
  chat_creator : Bool
  /-- `chat.admin_rights` is not None -/
  chat_admin_rights : Bool
  /-- `messages.total` for this user in the chat -/
  messagesTotal : Nat
deriving DecidableEq, Repr

/-- The observable effects of one kriminalamt invocation. -/
structure KResult where
  /-- the `asyncio.sleep(delay)` that was executed, if any -/
  waited : Option Int
  /-- the `client.gban(userid, reason)` calls issued -/
  gbans : List (Int × String)
  /-- `client.ban(chat, userid)` was executed -/
  localBan : Bool
  /-- the ban-command relay reply was sent -/
  relayedBanCmd : Bool
  /-- `DeleteUserHistoryRequest` was executed -/
  deletedHistory : Bool
  /-- `event.delete()` was executed -/
  deletedTrigger : Bool
deriving DecidableEq, Repr

/-- The handler returned without waiting and without any effect. -/
def KResult.skip : KResult := ⟨Option.none, [], false, false, false, false⟩

/-- Python `str.isdigit` for the ASCII-digit case: nonempty and all digits. -/
def pyIsDigit (s : String) : Bool :=
  !s.data.isEmpty && s.data.all (fun c => c.isDigit)

/-- Python `int(s)` on a digit-only string. -/
def pyParseNat (s : String) : Nat :=
  s.data.foldl (fun n c => 10 * n + (c.toNat - 48)) 0

/-- The delay computation of `kriminalamt.py` lines 38-46: `delay = 1`,
overridden by an int tag value, or by a digit-only string tag value. -/
def kriminalamtDelay : PyVal → Int
  | .int n => n
  | .str s => if pyIsDigit s then (pyParseNat s : Int) else 1
  | .none => 1
  | .range _ _ => 1

/-- The ban reason built at `kriminalamt.py` line 52:
`f'Kriminalamt #\x7bchat.id\x7d No. \x7bdelay\x7d'`. -/
def kriminalamtReason (chat_id delay : Int) : String :=
  "Kriminalamt #" ++ toString chat_id ++ " No. " ++ toString delay

/-- The kriminalamt handler (`kriminalamt.py` lines 22-67), transcribed
guard by guard. -/
def kriminalamt (e : KEvent) : KResult :=
  let bancmd := if e.gbancmd_tag = .none then PyVal.str "manual" else e.gbancmd_tag
  if ¬e.user_joined then .skip
  else if ¬e.kriminalamt_tag.truthy ∨ e.user_bot then .skip
  else
    let delay := kriminalamtDelay e.kriminalamt_tag
    if e.stillParticipant then { KResult.skip with waited := some delay }
    else
      let reason := kriminalamtReason e.chat_id delay
      let gbans := [(e.user_id, reason)]
      if e.chat_creator ∨ e.chat_admin_rights then
        let manual := bancmd = .str "manual"
        let relayed := ¬manual ∧ bancmd ≠ .none
        if e.messagesTotal ≤ 5 then
          ⟨some delay, gbans, manual, relayed, true, false⟩
        else
          ⟨some delay, gbans, manual, relayed, false, true⟩
      else
        ⟨some delay, gbans, false, false, false, false⟩

/-- Modelled from the spec: `client.gban` lives in `utils/client.py`, which
is not part of the provided sources.  Spec 4.6 says a confirmed departure
triggers a global ban "recorded in BanRecord with a reason referencing the
chat and delay": record the ban in the BanList keyed by the user id (first
ban wins, per the BanRecord data model). -/
def gban (bl : BanListState) (uid : Int) (reason : String) : BanListState :=
  (bl.add_user uid reason).2

/-- Apply the gban calls a handler issued, in order, to a BanList state. -/
def applyGbans (bl : BanListState) (gs : List (Int × String)) : BanListState :=
  gs.foldl (fun b g => gban b g.1 g.2) bl

/-! ## The query subcommand -/

/-- How one invocation of the query subcommand
(`autobahn_mgr.py` lines 218-262) terminates. -/
inductive QueryOutcome where
  /-- an `MDTeXDocument` was returned to the invoker -/
  | document
  /-- execution fell off the end: Python implicitly returns `None` -/
  | noneReturned
  /-- `db.ab_collection_map[hex_type]` raised `KeyError` (line 238) -/
  | keyErrorRaised
  /-- `collection.fetchAll()` was called on `None` (line 240),
  raising `AttributeError` -/
  | attributeErrorRaised
deriving DecidableEq, Repr

/-- The query subcommand (`autobahn_mgr.py` lines 218-262).
`item_type` is `kwargs.get('type')`; `code` is `kwargs.get('code')` with
`PyVal.none` for an absent key.  The document-producing branches are
modelled only by their termination kind (their rendering is opaque); the
`fetchDocument` of the single-code branch is assumed to find its key. -/
def querySubcommand (item_type : Option String) (code : PyVal) : QueryOutcome :=
  match item_type with
  | Option.none =>
    match code with
    | .none => .attributeErrorRaised
    | _ => .noneReturned
  | some t =>
    match AUTOBAHN_TYPES t with
    | Option.none => .keyErrorRaised
    | some h =>
      match ab_collection_map h with
      | Option.none => .keyErrorRaised
      | some _ =>
        match code with
        | .none => .document
        | .int _ => .document
        | .range _ _ => .document
        | .str _ => .noneReturned

/-! ## Claim theorems -/

/-- A NewMessage event in a group where the bot has ban rights, no excluding
tags are set, the sender's id 123 resolves to no entity (`ValueError`), the
BanList holds a record for 123, the sender is not an admin, and the ban call
succeeds. -/
def entityFailureEvent : GEvent where
  is_private := false
  isChatAction := false
  user_left := false
  user_kicked := false
  action_message_present := false
  actionIsJoinOrAdd := false
  chat_creator := false
  chat_admin_rights := true
  ban_users := true
  polizei_tag := .none
  grenzschutz_tag := .none
  uid := some 123
  getEntityOk := false
  banReason := some "spam"
  uidIsAdmin := false
  banOk := true

/-- C1: the store's type-code map does not cover all eight codes: the code
0x2 advertised by `AUTOBAHN_TYPES` for the filename blacklist, and declared
as `AutobahnFilenameBlacklist.hex_type`, is absent from `ab_collection_map`,
and no code at all maps to the filename collection — an add with the
filename type code targets no collection. -/
theorem C1_filename_code_unmapped :
    AUTOBAHN_TYPES "filename" = some "0x2" ∧
    ABCollectionId.filename.hex_type = "0x2" ∧
    ab_collection_map "0x2" = Option.none ∧
    ∀ id : ABCollectionId, ab_collection_map id.hex_type ≠ some .filename := by
  refine ⟨rfl, rfl, rfl, ?_⟩
  intro id
  cases id <;> simp [ab_collection_map, ABCollectionId.hex_type]

/-- C2: when entity resolution fails on an event whose user has a BanRecord,
the handler does not skip: it still bans and deletes, and a `NameError`
escapes when the notification is built from the unbound local. -/
theorem C2_entity_failure_not_skipped :
    grenzschutz entityFailureEvent =
      { banned := true, deleted := true, notified := false,
        raisedNameError := true } := by
  rfl

/-- C6 counterexample: the top-level-domain normalization removes an
interior dot, so it differs from stripping leading dots on `"a.b"`. -/
theorem C6_interior_dot_removed :
    normalizeTld "a.b" = "ab" ∧ stripLeadingDotsSpec "a.b" = "a.b" ∧
    normalizeTld "a.b" ≠ stripLeadingDotsSpec "a.b" := by
  refine ⟨rfl, rfl, ?_⟩
  decide

/-- C8: a query invocation with an unrecognized blacklist type name raises
`KeyError` out of the handler instead of reporting a user-visible message;
the wired-but-unmapped name `filename` raises as well. -/
theorem C8_query_unknown_type_raises :
    querySubcommand (some "bogus") PyVal.none = .keyErrorRaised ∧
    querySubcommand (some "filename") PyVal.none = .keyErrorRaised := by
  exact ⟨rfl, rfl⟩

/-- `addToCollection` when no document with the string exists yet. -/
theorem addToCollection_of_fresh (c : ABCollection) (v : String)
    (h : c.fetchByExample v = []) :
    addToCollection c v =
      (AddOutcome.added c.nextKey,
        ⟨c.docs ++ [(c.nextKey, v)], c.nextKey + 1⟩) := by
  simp [addToCollection, ABCollection.add_item, h]

/-- `addToCollection` when a document with the string already exists. -/
theorem addToCollection_of_present (c : ABCollection) (v : String)
    (h : c.fetchByExample v ≠ []) :
    addToCollection c v = (AddOutcome.existing, c) := by
  simp [addToCollection, List.isEmpty_iff, h]

/-- After adding `v`, a document with string `v` is present. -/
theorem fetchByExample_addToCollection_ne_nil (c : ABCollection) (v : String) :
    (addToCollection c v).2.fetchByExample v ≠ [] := by
  by_cases h : c.fetchByExample v = []
  · rw [addToCollection_of_fresh c v h]
    simp [ABCollection.fetchByExample, List.filter_append]
  · rw [addToCollection_of_present c v h]
    exact h

/-- C3: a second add of the same value reports the value as existing and
leaves the collection unchanged; when the value was fresh the two calls grow
the collection by exactly one document; value uniqueness is preserved. -/
theorem C3_duplicate_add_reports_existing (c : ABCollection) (v : String) :
    ((addToCollection (addToCollection c v).2 v).1 = AddOutcome.existing ∧
      (addToCollection (addToCollection c v).2 v).2 = (addToCollection c v).2) ∧
    (c.fetchByExample v = [] →
      (addToCollection (addToCollection c v).2 v).2.docs.length =
        c.docs.length + 1) ∧
    ((c.docs.map Prod.snd).Nodup →
      ((addToCollection (addToCollection c v).2 v).2.docs.map Prod.snd).Nodup) := by
  have hsecond :=
    addToCollection_of_present (addToCollection c v).2 v
      (fetchByExample_addToCollection_ne_nil c v)
  refine ⟨⟨by rw [hsecond], by rw [hsecond]⟩, ?_, ?_⟩
  · intro hfresh
    rw [hsecond, addToCollection_of_fresh c v hfresh]
    simp
  · intro hnodup
    rw [hsecond]
    by_cases h : c.fetchByExample v = []
    · rw [addToCollection_of_fresh c v h]
      simp only [List.map_append, List.map_cons, List.map_nil]
      rw [List.nodup_append]
      refine ⟨hnodup, List.nodup_singleton v, ?_⟩
      intro a ha hb
      simp only [List.mem_singleton] at hb
      subst hb
      simp only [List.mem_map] at ha
      obtain ⟨d, hd, rfl⟩ := ha
      simp only [ABCollection.fetchByExample, List.filter_eq_nil_iff] at h
      exact h d hd (by simp)
    · rw [addToCollection_of_present c v h]
      exact hnodup

/-- C3 witness at the empty collection with the value `"spam"`. -/
theorem C3_duplicate_add_reports_existing_witness :
    (addToCollection (addToCollection ABCollection.empty "spam").2 "spam").1 =
      AddOutcome.existing ∧
    (addToCollection (addToCollection ABCollection.empty "spam").2 "spam").2.docs.length =
      ABCollection.empty.docs.length + 1 ∧
    ((addToCollection
        (addToCollection ABCollection.empty "spam").2 "spam").2.docs.map
      Prod.snd).Nodup :=
  ⟨(C3_duplicate_add_reports_existing ABCollection.empty "spam").1.1,
   (C3_duplicate_add_reports_existing ABCollection.empty "spam").2.1 (by decide),
   (C3_duplicate_add_reports_existing ABCollection.empty "spam").2.2 (by decide)⟩

/-- C9: adding a user id that already has a BanList document returns `None`
and changes nothing: the state is untouched and the stored reason still
reads as before, for any reason passed to the re-ban attempt. -/
theorem C9_first_ban_wins (bl : BanListState) (id_ : Int) (r r0 : String)
    (h : bl.get_user id_ = some r0) :
    bl.add_user id_ r = (Option.none, bl) ∧
    (bl.add_user id_ r).2.get_user id_ = some r0 := by
  have hmem : bl.docs.any (fun d => d.1 = id_) = true := by
    simp only [BanListState.get_user, Option.map_eq_some'] at h
    obtain ⟨d, hd, _⟩ := h
    have hdm := List.mem_of_find?_eq_some hd
    have hdp := List.find?_some hd
    simp only [List.any_eq_true]
    exact ⟨d, hdm, hdp⟩
  have hadd : bl.add_user id_ r = (Option.none, bl) := by
    simp [BanListState.add_user, hmem]
  exact ⟨hadd, by rw [hadd]; exact h⟩

/-- C9 witness: user 7 is banned for `"spam"`; a second add with reason
`"other"` returns `None` and leaves the state and stored reason intact. -/
theorem C9_first_ban_wins_witness :
    BanListState.add_user ⟨[(7, "spam")]⟩ 7 "other" =
      (Option.none, (⟨[(7, "spam")]⟩ : BanListState)) ∧
    (BanListState.add_user ⟨[(7, "spam")]⟩ 7 "other").2.get_user 7 =
      some "spam" :=
  C9_first_ban_wins ⟨[(7, "spam")]⟩ 7 "other" "spam" (by decide)

/-- C10: fetching a chat id with no document yet lazily creates exactly one
document whose key is the string form of the id, whose id field is the id,
and whose tags and named_tags are empty. -/
theorem C10_new_chat_defaults (cs : ChatsState) (chat_id : Int)
    (h : ∀ d ∈ cs.docs, d.key ≠ toString chat_id) :
    (cs.get_chat chat_id).1 =
      some ⟨toString chat_id, chat_id, [], []⟩ ∧
    (cs.get_chat chat_id).2.docs =
      cs.docs ++ [⟨toString chat_id, chat_id, [], []⟩] := by
  have hfind : cs.docs.find? (fun d => d.key = toString chat_id) = Option.none := by
    rw [List.find?_eq_none]
    intro d hd
    simp [h d hd]
  have hany : cs.docs.any (fun d => d.key = toString chat_id) = false := by
    simp only [List.any_eq_false]
    intro d hd
    simp [h d hd]
  simp [ChatsState.get_chat, ChatsState.add_chat, hfind, hany]

/-- C10 witness: observing chat 42 on an empty Chats collection. -/
theorem C10_new_chat_defaults_witness :
    (ChatsState.get_chat ⟨[]⟩ 42).1 = some ⟨"42", 42, [], []⟩ ∧
    (ChatsState.get_chat ⟨[]⟩ 42).2.docs = [] ++ [⟨"42", 42, [], []⟩] :=
  C10_new_chat_defaults ⟨[]⟩ 42 (by intro d hd; cases hd)

/-- Filtering the dots out is insensitive to first dropping leading dots. -/
theorem filter_ne_dot_dropWhile (l : List Char) :
    (l.dropWhile (fun c => c = '.')).filter (fun c => c ≠ '.') =
      l.filter (fun c => c ≠ '.') := by
  induction l with
  | nil => rfl
  | cons c t ih =>
    by_cases h : c = '.'
    · subst h
      simpa [List.dropWhile_cons, List.filter_cons] using ih
    · simp [List.dropWhile_cons, List.filter_cons, h]

/-- C6 (amended): the top-level-domain normalization removes every dot of
the input — leading dots are stripped (prepending stripped leading dots
never changes the result), and no dot at all survives in the output. -/
theorem C6_amended_removes_every_dot (s : String) :
    normalizeTld (stripLeadingDotsSpec s) = normalizeTld s ∧
    ∀ c ∈ (normalizeTld s).data, c ≠ '.' := by
  constructor
  · unfold normalizeTld stripLeadingDotsSpec
    exact congrArg String.mk (filter_ne_dot_dropWhile s.data)
  · intro c hc
    unfold normalizeTld at hc
    simp only [List.mem_filter, decide_eq_true_eq] at hc
    exact hc.2

/-- C6 amended witness on `".co.uk"`. -/
theorem C6_amended_removes_every_dot_witness :
    normalizeTld (stripLeadingDotsSpec ".co.uk") = normalizeTld ".co.uk" ∧
    'c' ≠ '.' :=
  ⟨(C6_amended_removes_every_dot ".co.uk").1,
   (C6_amended_removes_every_dot ".co.uk").2 'c' (by decide)⟩

/-- C7: with the kriminalamt tag absent, or a bot as the joining account,
the handler performs no wait, issues no gban, and neither bans nor deletes
anything. -/
theorem C7_kriminalamt_fail_closed (e : KEvent)
    (h : e.kriminalamt_tag = PyVal.none ∨ e.user_bot = true) :
    kriminalamt e = KResult.skip := by
  unfold kriminalamt
  by_cases hj : e.user_joined = true
  · rcases h with h | h
    · simp [hj, h, PyVal.truthy]
    · simp [hj, h]
  · simp [hj]

/-- C7 witness: a join event by a non-bot in chat 55 with no tags set. -/
theorem C7_kriminalamt_fail_closed_witness :
    kriminalamt
      ⟨true, false, PyVal.none, PyVal.none, false, 55, 9, true, false, 0⟩ =
      KResult.skip :=
  C7_kriminalamt_fail_closed
    ⟨true, false, PyVal.none, PyVal.none, false, 55, 9, true, false, 0⟩
    (Or.inl rfl)

/-- `add_user` for an id with no existing document appends exactly one
document. -/
theorem BanListState.add_user_of_absent (bl : BanListState) (uid : Int)
    (reason : String) (h : bl.get_user uid = Option.none) :
    bl.add_user uid reason =
      (some (uid, reason), ⟨bl.docs ++ [(uid, reason)]⟩) := by
  have hfind : bl.docs.find? (fun d => d.1 = uid) = Option.none := by
    simp only [BanListState.get_user, Option.map_eq_none'] at h
    exact h
  have hany : bl.docs.any (fun d => d.1 = uid) = false := by
    rw [List.find?_eq_none] at hfind
    simp only [List.any_eq_false]
    exact hfind
  simp [BanListState.add_user, hany]

/-- The gban issued by a departed-user event, shared by all three
admin-rights branches of the handler. -/
theorem kriminalamt_gbans_of_departed (e : KEvent)
    (hj : e.user_joined = true) (ht : e.kriminalamt_tag.truthy = true)
    (hb : e.user_bot = false) (hs : e.stillParticipant = false) :
    (kriminalamt e).gbans =
      [(e.user_id,
        kriminalamtReason e.chat_id (kriminalamtDelay e.kriminalamt_tag))] := by
  unfold kriminalamt
  simp only [hj, ht, hb, hs, Bool.not_true, Bool.false_eq_true, or_false,
    not_true, not_false_iff, ite_true, ite_false, if_neg, if_pos]
  split <;> first | rfl | (split <;> rfl)

/-- C4: on a join event with the kriminalamt tag set and a non-bot user who
is no longer a participant after the delay, the handler issues exactly one
gban, whose reason contains the chat id and the configured delay, and
applying it to any BanList not yet holding the user creates exactly one
BanRecord; a user still present after the delay produces none. -/
theorem C4_departed_user_gbanned (e : KEvent)
    (hj : e.user_joined = true) (ht : e.kriminalamt_tag.truthy = true)
    (hb : e.user_bot = false) :
    (e.stillParticipant = false →
      (kriminalamt e).gbans =
        [(e.user_id,
          kriminalamtReason e.chat_id (kriminalamtDelay e.kriminalamt_tag))] ∧
      (∃ a b, kriminalamtReason e.chat_id (kriminalamtDelay e.kriminalamt_tag) =
        a ++ toString e.chat_id ++ b) ∧
      (∃ a b, kriminalamtReason e.chat_id (kriminalamtDelay e.kriminalamt_tag) =
        a ++ toString (kriminalamtDelay e.kriminalamt_tag) ++ b) ∧
      ∀ bl : BanListState, bl.get_user e.user_id = Option.none →
        (applyGbans bl (kriminalamt e).gbans).docs.length =
          bl.docs.length + 1) ∧
    (e.stillParticipant = true → (kriminalamt e).gbans = []) := by
  constructor
  · intro hs
    have hg := kriminalamt_gbans_of_departed e hj ht hb hs
    refine ⟨hg, ?_, ?_, ?_⟩
    · refine ⟨"Kriminalamt #",
        " No. " ++ toString (kriminalamtDelay e.kriminalamt_tag), ?_⟩
      simp [kriminalamtReason, String.append_assoc]
    · refine ⟨"Kriminalamt #" ++ toString e.chat_id ++ " No. ", "", ?_⟩
      simp [kriminalamtReason, String.append_assoc]
    · intro bl hbl
      rw [hg]
      simp only [applyGbans, List.foldl_cons, List.foldl_nil, gban,
        BanListState.add_user_of_absent bl e.user_id _ hbl]
      simp
  · intro hs
    unfold kriminalamt
    simp [hj, ht, hb, hs, KResult.skip]

/-- The C4 witness event: a non-bot joins chat 55 with the kriminalamt tag
set to 1 and is gone after the delay. -/
def kriminalamtDepartedEvent : KEvent :=
  ⟨true, false, PyVal.int 1, PyVal.none, false, 55, 9, true, false, 0⟩

/-- C4 witness: the departed user of `kriminalamtDepartedEvent` receives
exactly one BanRecord on an empty BanList. -/
theorem C4_departed_user_gbanned_witness :
    (kriminalamt kriminalamtDepartedEvent).gbans =
      [(9, kriminalamtReason 55 (kriminalamtDelay (PyVal.int 1)))] ∧
    (applyGbans ⟨[]⟩ (kriminalamt kriminalamtDepartedEvent).gbans).docs.length =
      (⟨[]⟩ : BanListState).docs.length + 1 :=
  ⟨((C4_departed_user_gbanned kriminalamtDepartedEvent rfl rfl rfl).1 rfl).1,
   ((C4_departed_user_gbanned kriminalamtDepartedEvent rfl rfl rfl).1
      rfl).2.2.2 ⟨[]⟩ rfl⟩

/-- Any event whose chat carries `grenzschutz: exclude` is skipped before
any lookup or action. -/
theorem grenzschutz_excluded (e : GEvent)
    (h : e.grenzschutz_tag = PyVal.str "exclude") :
    grenzschutz e = GResult.skip := by
  unfold grenzschutz
  simp [h]

/-- C5: on a qualifying event — not private, a join/add action when a chat
action, ban rights held, no exclude tags, a resolvable user with a BanRecord
who is not an admin, and a ban call that goes through — the guard bans the
user and deletes the triggering action; the same event with
`grenzschutz: exclude` produces no effect at all. -/
theorem C5_guard_bans_and_exclude_suppresses (e : GEvent)
    (hpriv : e.is_private = false)
    (hlk : e.isChatAction = true → e.user_left = false ∧ e.user_kicked = false)
    (ham : e.isChatAction = true → e.action_message_present = true)
    (hact : e.isChatAction = true → e.actionIsJoinOrAdd = true)
    (hrights : e.chat_creator = true ∨ e.chat_admin_rights = true)
    (hban : e.chat_admin_rights = true → e.ban_users = true)
    (hg : e.grenzschutz_tag ≠ PyVal.str "exclude")
    (hp : e.polizei_tag ≠ PyVal.str "exclude")
    (huid : e.uid.isSome = true)
    (hent : e.getEntityOk = true)
    (hrec : e.banReason.isSome = true)
    (hadm : e.uidIsAdmin = false)
    (hbok : e.banOk = true) :
    ((grenzschutz e).banned = true ∧ (grenzschutz e).deleted = true) ∧
    grenzschutz { e with grenzschutz_tag := PyVal.str "exclude" } =
      GResult.skip := by
  refine ⟨?_, grenzschutz_excluded _ rfl⟩
  obtain ⟨u, hu⟩ := Option.isSome_iff_exists.mp huid
  obtain ⟨r, hr⟩ := Option.isSome_iff_exists.mp hrec
  rcases hrights with hc | hA <;>
    by_cases hca : e.isChatAction = true <;>
    by_cases hA2 : e.chat_admin_rights = true <;>
    by_cases hsil : e.grenzschutz_tag = PyVal.str "silent" <;>
    simp_all [grenzschutz]

/-- The C5 witness event: a banned, non-admin user 123 writes a message in a
group where the bot has ban rights and no tags are set. -/
def guardQualifyingEvent : GEvent :=
  { is_private := false
    isChatAction := false
    user_left := false
    user_kicked := false
    action_message_present := false
    actionIsJoinOrAdd := false
    chat_creator := false
    chat_admin_rights := true
    ban_users := true
    polizei_tag := .none
    grenzschutz_tag := .none
    uid := some 123
    getEntityOk := true
    banReason := some "spam"
    uidIsAdmin := false
    banOk := true }

/-- C5 witness: `guardQualifyingEvent` is banned and its action deleted,
and the same event under `grenzschutz: exclude` is skipped. -/
theorem C5_guard_bans_and_exclude_suppresses_witness :
    ((grenzschutz guardQualifyingEvent).banned = true ∧
      (grenzschutz guardQualifyingEvent).deleted = true) ∧
    grenzschutz
      { guardQualifyingEvent with grenzschutz_tag := PyVal.str "exclude" } =
      GResult.skip :=
  C5_guard_bans_and_exclude_suppresses guardQualifyingEvent rfl
    (fun h => by cases h) (fun h => by cases h) (fun h => by cases h)
    (Or.inr rfl) (fun _ => rfl) (by decide) (by decide) rfl rfl rfl rfl rfl

end Kantek
